import Mathlib

/-!
Verification development for the gel-controller repository.

The definitions below are a shallow embedding of the occupancy/camera
coordination core: `gel_controller/camera_state.py`, `gel_controller/camera.py`,
`gel_controller/room.py`, `gel_controller/person_detector.py` and
`gel_controller/room_controller.py`.  Wall-clock timestamps are modelled as
explicit `Nat`/`Int` parameters (`datetime.now()` / `time.time()` become a
`now` argument), side effects (HTTP requests, file writes, callback calls)
become explicit event traces, and Python exceptions become explicit error
components of the return value.
-/

namespace GelController

/-! ### Camera state machine — gel_controller/camera_state.py -/

/-- `CameraStatus` enum from camera_state.py. -/
inductive CameraStatus where
  | INACTIVE
  | ACTIVE
  | RECORDING
  | ERROR
  | CALIBRATING
  | OFFLINE
  deriving DecidableEq, Repr

/-- `CameraState.TRANSITIONS`: the valid state transition table. -/
def TRANSITIONS : CameraStatus → List CameraStatus
  | .OFFLINE => [.CALIBRATING, .INACTIVE, .ACTIVE]
  | .CALIBRATING => [.INACTIVE, .ERROR]
  | .INACTIVE => [.ACTIVE, .OFFLINE, .ERROR]
  | .ACTIVE => [.RECORDING, .INACTIVE, .OFFLINE, .ERROR]
  | .RECORDING => [.ACTIVE, .INACTIVE, .OFFLINE, .ERROR]
  | .ERROR => [.CALIBRATING, .OFFLINE, .INACTIVE]

/-- The mutable fields of a `CameraState` object: current status, time the
status was entered, the append-only history of `(status, timestamp)` pairs,
and the current error message. -/
structure CameraState where
  status : CameraStatus
  enteredAt : Nat
  history : List (CameraStatus × Nat)
  errorMessage : Option String
  deriving DecidableEq, Repr

/-- `CameraState.__init__`: starts in `initial_status`, with a single history
entry stamped `now`. -/
def CameraState.init (initialStatus : CameraStatus) (now : Nat) : CameraState :=
  { status := initialStatus
    enteredAt := now
    history := [(initialStatus, now)]
    errorMessage := none }

/-- `CameraState.transition_to`: same-state calls are accepted no-ops; an edge
absent from `TRANSITIONS` is rejected with no mutation; an allowed edge updates
status, `entered_at`, history, and the error message. Returns the Python
return value paired with the post-call state. -/
def CameraState.transitionTo (st : CameraState) (newStatus : CameraStatus)
    (reason : Option String) (now : Nat) : Bool × CameraState :=
  if newStatus = st.status then
    (true, st)
  else if newStatus ∈ TRANSITIONS st.status then
    (true,
      { status := newStatus
        enteredAt := now
        history := st.history ++ [(newStatus, now)]
        errorMessage := if newStatus = CameraStatus.ERROR then reason else none })
  else
    (false, st)

/-! ### Camera — gel_controller/camera.py -/

/-- The fields of a `Camera` relevant to `check_room_and_update_state`:
its embedded `CameraState` and the `_saw_occupied` flag. -/
structure CameraM where
  cameraState : CameraState
  sawOccupied : Bool
  deriving DecidableEq, Repr

/-- `Camera.set_status`: delegates to `CameraState.transition_to`. -/
def CameraM.setStatus (c : CameraM) (newStatus : CameraStatus)
    (reason : Option String) (now : Nat) : Bool × CameraM :=
  let r := c.cameraState.transitionTo newStatus reason now
  (r.1, { c with cameraState := r.2 })

/-- `Camera.check_room_and_update_state` (camera.py lines 150-177): on an
occupied room, record occupancy and force status to INACTIVE; on any other
room state, move OFFLINE to INACTIVE, demote any other non-INACTIVE status to
INACTIVE, and clear `_saw_occupied` (the OFFLINE branch returns early without
clearing the flag, exactly as the source). -/
def CameraM.checkRoomAndUpdateState (c : CameraM) (roomState : String)
    (now : Nat) : CameraM :=
  if roomState = "occupied" then
    let c1 : CameraM := { c with sawOccupied := true }
    if c1.cameraState.status ≠ CameraStatus.INACTIVE then
      (c1.setStatus CameraStatus.INACTIVE (some "Room occupied") now).2
    else
      c1
  else if c.cameraState.status = CameraStatus.OFFLINE then
    (c.setStatus CameraStatus.INACTIVE (some "Room empty (offline->inactive)") now).2
  else
    let c2 : CameraM :=
      if c.cameraState.status ≠ CameraStatus.INACTIVE then
        (c.setStatus CameraStatus.INACTIVE (some "Room empty (idle)") now).2
      else
        c
    { c2 with sawOccupied := false }

/-! ### Room — gel_controller/room.py -/

/-- The valid room states accepted by the `Room.state` setter. -/
def validStates : List String := ["occupied", "empty"]

/-- The fields of a `Room` relevant to state/timer management.  A
`threading.Timer` handle is modelled as a numeric id; `armedTimers` tracks
every started-and-not-yet-cancelled timer (with its delay in seconds), so that
"only one timer armed at a time" is a provable property rather than a
modelling artifact; `nextTimerId` is a fresh-id source. -/
structure RoomM where
  state : Option String
  emptyTimer : Option Nat
  armedTimers : List (Nat × Nat)
  nextTimerId : Nat
  captureDelay : Nat
  deriving DecidableEq, Repr

/-- `Room._cancel_empty_timer`: if a timer handle is held, cancel it (remove
it from the armed set) and drop the handle. -/
def RoomM.cancelEmptyTimer (r : RoomM) : RoomM :=
  match r.emptyTimer with
  | some tid =>
      { r with
        emptyTimer := none
        armedTimers := r.armedTimers.filter (fun p => p.1 ≠ tid) }
  | none => r

/-- `Room._start_empty_timer`: cancel any existing timer, then arm a fresh
timer for `capture_delay` seconds and keep its handle. -/
def RoomM.startEmptyTimer (r : RoomM) : RoomM :=
  let r1 := r.cancelEmptyTimer
  { r1 with
    emptyTimer := some r1.nextTimerId
    armedTimers := r1.armedTimers ++ [(r1.nextTimerId, r1.captureDelay)]
    nextTimerId := r1.nextTimerId + 1 }

/-- `Room.state` setter (room.py lines 103-128): rejects a value outside
`valid_states` with a ValueError before any mutation; otherwise stores the
value and, only on an actual change, starts the empty timer on
occupied-to-empty and cancels it on empty-to-occupied.  The second component
is the raised exception, `none` when the call returns normally. -/
def RoomM.setState (r : RoomM) (s : String) : RoomM × Option String :=
  if s ∈ validStates then
    let old := r.state
    let r1 : RoomM := { r with state := some s }
    if old ≠ some s then
      if s = "empty" ∧ old = some "occupied" then (r1.startEmptyTimer, none)
      else if s = "occupied" ∧ old = some "empty" then (r1.cancelEmptyTimer, none)
      else (r1, none)
    else (r1, none)
  else
    (r, some ("ValueError: Invalid state: " ++ s))

/-- `Room.__init__`: state starts at `None`, no timer, `capture_delay = 30.0`,
then the initial state is validated through the `state` setter. -/
def RoomM.init (initialState : String) : RoomM × Option String :=
  RoomM.setState
    { state := none
      emptyTimer := none
      armedTimers := []
      nextTimerId := 0
      captureDelay := 30 }
    initialState

/-- The armed-timer set a room should have: exactly the timer named by its
`emptyTimer` handle, armed for `captureDelay` seconds. -/
def RoomM.armedByField (r : RoomM) : List (Nat × Nat) :=
  match r.emptyTimer with
  | some tid => [(tid, r.captureDelay)]
  | none => []

/-- Timer invariant: the armed timers are exactly those reachable from the
room's handle (in particular, at most one timer is armed). -/
def RoomM.timerInv (r : RoomM) : Prop :=
  r.armedTimers = r.armedByField

instance (r : RoomM) : Decidable r.timerInv := by
  unfold RoomM.timerInv
  infer_instance

/-! ### PersonDetector — gel_controller/person_detector.py -/

/-- The fields of a `PersonDetector` relevant to heartbeat-timeout handling:
the timeout, the last heartbeat timestamp (`None` until a heartbeat has been
seen), and the optional back-reference to the owning room.  Timestamps are
`Int` seconds. -/
structure PersonDetectorM where
  heartbeatTimeout : Int
  lastHeartbeatTime : Option Int
  room : Option RoomM
  deriving DecidableEq, Repr

/-- `PersonDetector.on_heartbeat_detected`: a positive reading records the
signal time and writes OCCUPIED to the owning room; otherwise a no-op. -/
def PersonDetectorM.onHeartbeatDetected (d : PersonDetectorM) (heartRate : Int)
    (now : Int) : PersonDetectorM :=
  if 0 < heartRate then
    let d1 : PersonDetectorM := { d with lastHeartbeatTime := some now }
    match d1.room with
    | some r => { d1 with room := some (r.setState "occupied").1 }
    | none => d1
  else
    d

/-- `PersonDetector.on_heartbeat_timeout`: clears `_last_heartbeat_time` and
writes EMPTY to the owning room (if any). -/
def PersonDetectorM.onHeartbeatTimeout (d : PersonDetectorM) : PersonDetectorM :=
  let d1 : PersonDetectorM := { d with lastHeartbeatTime := none }
  match d1.room with
  | some r => { d1 with room := some (r.setState "empty").1 }
  | none => d1

/-- `PersonDetector.check_heartbeat_timeout` (person_detector.py lines
263-276): if a heartbeat has been seen and strictly more than
`heartbeat_timeout` seconds have elapsed, invoke `on_heartbeat_timeout`;
otherwise do nothing. -/
def PersonDetectorM.checkHeartbeatTimeout (d : PersonDetectorM) (now : Int) :
    PersonDetectorM :=
  match d.lastHeartbeatTime with
  | some t =>
      if now - t > d.heartbeatTimeout then d.onHeartbeatTimeout else d
  | none => d

/-! ### Capture side effects — Room._trigger_capture and Camera.capture_image -/

/-- Observable side effects of the capture paths: HTTP GET requests, file
writes, and invocations of a capture-complete callback. -/
inductive CaptureEvent where
  | httpGet (url : String)
  | fileWrite (path : String)
  | callbackCall (files : List String)
  deriving DecidableEq, Repr

/-- Whether an event is a capture-complete callback invocation. -/
def CaptureEvent.isCallbackCall : CaptureEvent → Bool
  | .callbackCall _ => true
  | _ => false

/-- The identity and network fields of a camera used by the capture paths. -/
structure CameraRec where
  name : String
  ip : Option String
  deriving DecidableEq, Repr

/-- Python string interpolation of an optional IP (`f"http://{camera.ip}/..."`
renders `None` as the text "None"). -/
def ipText : Option String → String
  | some s => s
  | none => "None"

/-- The HTTP world: a response `(status code, body)` per URL, `none` meaning
`requests.get` raises. -/
def HttpWorld : Type := String → Option (Nat × String)

/-- `Room._trigger_capture` (room.py lines 148-181): for each owned camera,
GET `http://{ip}/capture` directly; on a 200 response write
`captures/{camera.name}-{timestamp}.jpeg`; any exception or non-200 status is
only logged.  Returns the event trace of the call. -/
def triggerCapture (cameras : List CameraRec) (timestamp : String)
    (w : HttpWorld) : List CaptureEvent :=
  cameras.flatMap (fun cam =>
    let url := "http://" ++ ipText cam.ip ++ "/capture"
    match w url with
    | some (status, _) =>
        if status = 200 then
          [CaptureEvent.httpGet url,
           CaptureEvent.fileWrite ("captures/" ++ cam.name ++ "-" ++ timestamp ++ ".jpeg")]
        else
          [CaptureEvent.httpGet url]
    | none => [CaptureEvent.httpGet url])

/-- `Camera.capture_image` (camera.py lines 179-228): skip cameras without an
IP; otherwise GET the control URL (framesize), then GET the capture URL, and
on a 200 response write `captures/{tag}-{room_id}-{name}-{timestamp}.jpeg` and
return its path; exceptions and non-200 capture responses yield `none`.
Returns the event trace paired with the returned path. -/
def captureImage (cam : CameraRec) (roomId : String) (tag : String)
    (timestamp : String) (w : HttpWorld) : List CaptureEvent × Option String :=
  match cam.ip with
  | none => ([], none)
  | some ip =>
      let controlUrl := "http://" ++ ip ++ "/control?var=framesize&val=15"
      let captureUrl := "http://" ++ ip ++ "/capture"
      match w controlUrl with
      | none => ([CaptureEvent.httpGet controlUrl], none)
      | some _ =>
          match w captureUrl with
          | none =>
              ([CaptureEvent.httpGet controlUrl, CaptureEvent.httpGet captureUrl], none)
          | some (status, _) =>
              if status = 200 then
                let fname :=
                  "captures/" ++ tag ++ "-" ++ roomId ++ "-" ++ cam.name ++ "-" ++ timestamp ++ ".jpeg"
                ([CaptureEvent.httpGet controlUrl, CaptureEvent.httpGet captureUrl,
                  CaptureEvent.fileWrite fname], some fname)
              else
                ([CaptureEvent.httpGet controlUrl, CaptureEvent.httpGet captureUrl], none)

/-! ### Dynamic attribute lookup — RoomController.add_room vs class Room -/

/-- The attributes (methods, properties and instance fields) defined by
`class Room` in room.py.  Python attribute lookup on a `Room` instance
succeeds exactly for these names. -/
def roomAttributeNames : List String :=
  ["room_id", "name", "state",
   "get_room_id", "set_room_id", "get_name", "set_name",
   "get_state", "set_state",
   "_start_empty_timer", "_cancel_empty_timer", "_trigger_capture",
   "get_cameras", "add_camera", "remove_camera", "set_camera_inactive",
   "get_person_detectors", "add_person_detector", "remove_person_detector",
   "_room_id", "_name", "_state", "_cameras", "_person_detectors",
   "_empty_timer", "_capture_delay"]

/-- Result of `RoomController.add_room`: the controller's room list after the
call and the exception raised, if any. -/
structure AddRoomResult where
  rooms : List String
  raised : Option String
  deriving DecidableEq, Repr

/-- `RoomController.add_room` (room_controller.py lines 58-70): a room already
present is a warning no-op; otherwise the room is appended and
`room.set_capture_callback(...)` is invoked — an attribute lookup on the Room
class, which raises AttributeError when `class Room` defines no such name.
Rooms are identified by their Python object identity, modelled as ids. -/
def addRoom (rooms : List String) (roomId : String) : AddRoomResult :=
  if roomId ∈ rooms then
    { rooms := rooms, raised := none }
  else
    let rooms2 := rooms ++ [roomId]
    if "set_capture_callback" ∈ roomAttributeNames then
      { rooms := rooms2, raised := none }
    else
      { rooms := rooms2
        raised := some "AttributeError: Room object has no attribute set_capture_callback" }

/-! ### Detector scheduling — RoomController._async_detector_loop -/

/-- The collaborator calls performed by one run of
`RoomController._async_detector_loop`. -/
structure DetectorLoopTrace where
  connectCalls : Nat
  subscribeCalls : Nat
  heartbeatChecks : Nat
  disconnectCalls : Nat
  deriving DecidableEq, Repr

/-- `RoomController._async_detector_loop` (room_controller.py lines 391-413):
`try: connect; subscribe; while running: check; sleep` with a single
`except` that logs and a `finally` that disconnects.  `connectRaises` and
`subscribeRaises` say whether the corresponding collaborator call raises;
`runningIters` is the number of loop iterations until the `_running` flag is
observed false.  The function returns the resulting call trace: any raise
flows to the handler and the coroutine returns — there is no retry. -/
def asyncDetectorLoop (connectRaises : Bool) (subscribeRaises : Bool)
    (runningIters : Nat) : DetectorLoopTrace :=
  if connectRaises then
    { connectCalls := 1, subscribeCalls := 0, heartbeatChecks := 0, disconnectCalls := 1 }
  else if subscribeRaises then
    { connectCalls := 1, subscribeCalls := 1, heartbeatChecks := 0, disconnectCalls := 1 }
  else
    { connectCalls := 1, subscribeCalls := 1, heartbeatChecks := runningIters,
      disconnectCalls := 1 }

/-! ### Camera construction — Camera.__init__ calling CameraState.__init__ -/

/-- The `state` argument accepted by `Camera.__init__`: absent, a
`CameraStatus`, or a string. -/
inductive PyStateArg where
  | absent
  | status (s : CameraStatus)
  | str (s : String)
  deriving DecidableEq, Repr

/-- Enum lookup `CameraStatus(value)` from camera_state.py. -/
def parseCameraStatus (s : String) : Option CameraStatus :=
  if s = "inactive" then some CameraStatus.INACTIVE
  else if s = "active" then some CameraStatus.ACTIVE
  else if s = "recording" then some CameraStatus.RECORDING
  else if s = "error" then some CameraStatus.ERROR
  else if s = "calibrating" then some CameraStatus.CALIBRATING
  else if s = "offline" then some CameraStatus.OFFLINE
  else none

/-- The status-resolution logic at the top of `Camera.__init__`: an explicit
`CameraStatus` wins; a string is lowercased and looked up, falling back to
`initial_status` with a warning on an unknown value; otherwise
`initial_status`. -/
def resolveStatus (initialStatus : CameraStatus) (state : PyStateArg) :
    CameraStatus :=
  match state with
  | PyStateArg.absent => initialStatus
  | PyStateArg.status s => s
  | PyStateArg.str s => (parseCameraStatus s.toLower).getD initialStatus

/-- The parameter names of `CameraState.__init__` (besides `self`),
camera_state.py lines 44-54. -/
def cameraStateInitParams : List String := ["initial_status"]

/-- Python keyword-argument binding: a call with `posCount` positional
arguments and keyword names `kws` succeeds iff every keyword names a parameter
not already bound positionally. -/
def kwargsAccepted (params : List String) (posCount : Nat)
    (kws : List String) : Bool :=
  kws.all (fun k => k ∈ params.drop posCount)

/-- A fully constructed camera, as `Camera.__init__` would produce one. -/
structure CameraFull where
  name : String
  roomId : String
  cameraState : CameraState
  sawOccupied : Bool
  captureCount : Nat
  deriving DecidableEq, Repr

/-- `Camera.__init__` (camera.py lines 28-77): resolves the status, then calls
`CameraState(resolved_status, camera=self)` — one positional argument plus the
keyword `camera`, checked against `CameraState.__init__`'s parameter list.
The second branch would build the camera; an unaccepted keyword raises
TypeError instead. -/
def cameraInit (name roomId : String) (initialStatus : CameraStatus)
    (state : PyStateArg) (now : Nat) : Except String CameraFull :=
  let resolved := resolveStatus initialStatus state
  if kwargsAccepted cameraStateInitParams 1 ["camera"] then
    Except.ok
      { name := name
        roomId := roomId
        cameraState := CameraState.init resolved now
        sawOccupied := false
        captureCount := 0 }
  else
    Except.error "TypeError: CameraState.__init__ got an unexpected keyword argument camera"

/-! ### Concrete example values used by witnesses and counterexamples -/

/-- A camera whose status is ACTIVE, as left by a prior explicit ACTIVE
command. -/
def activeCameraExample : CameraM :=
  { cameraState :=
      { status := CameraStatus.ACTIVE
        enteredAt := 0
        history := [(CameraStatus.ACTIVE, 0)]
        errorMessage := none }
    sawOccupied := false }

/-- A fresh camera state starting OFFLINE at time 0. -/
def offlineStateExample : CameraState := CameraState.init CameraStatus.OFFLINE 0

/-- An occupied room with one armed timer (as after a spurious arm). -/
def occupiedRoomExample : RoomM :=
  { state := some "occupied"
    emptyTimer := some 0
    armedTimers := [(0, 30)]
    nextTimerId := 1
    captureDelay := 30 }

/-- An empty room with one armed timer. -/
def emptyRoomExample : RoomM :=
  { state := some "empty"
    emptyTimer := some 3
    armedTimers := [(3, 30)]
    nextTimerId := 4
    captureDelay := 30 }

/-- A detector that saw its last heartbeat at time 0 with a 10s timeout. -/
def timedOutDetectorExample : PersonDetectorM :=
  { heartbeatTimeout := 10
    lastHeartbeatTime := some 0
    room := some occupiedRoomExample }

/-- A detector that has never been signaled. -/
def freshDetectorExample : PersonDetectorM :=
  { heartbeatTimeout := 10
    lastHeartbeatTime := none
    room := some occupiedRoomExample }

/-- A camera with a reachable IP, as owned by a room at capture time. -/
def cam1Example : CameraRec := { name := "cam1", ip := some "10.0.0.5" }

/-- An HTTP world in which every request succeeds with status 200. -/
def httpOkWorld : HttpWorld := fun _ => some (200, "img")

/-! ### Theorems -/

/-- C6: for every camera in every status, if the room is occupied then after
`check_room_and_update_state` the camera's status is INACTIVE; moreover from
every status other than INACTIVE a single legal edge to INACTIVE exists in the
transition table. -/
theorem occupied_room_poll_forces_inactive (c : CameraM) (now : Nat) :
    (c.checkRoomAndUpdateState "occupied" now).cameraState.status = CameraStatus.INACTIVE
    ∧ ∀ s : CameraStatus, s = CameraStatus.INACTIVE ∨ CameraStatus.INACTIVE ∈ TRANSITIONS s := by
  constructor
  · obtain ⟨⟨st, e, h, m⟩, saw⟩ := c
    cases st <;> rfl
  · intro s
    cases s <;> simp [TRANSITIONS]

/-- C5 counterexample: a camera holding ACTIVE status polls an empty room and
is demoted to INACTIVE by `check_room_and_update_state`, not retained at
ACTIVE as the claim states. -/
theorem poll_demotes_prior_active_counterexample :
    (activeCameraExample.checkRoomAndUpdateState "empty" 1).cameraState.status
      = CameraStatus.INACTIVE
    ∧ (activeCameraExample.checkRoomAndUpdateState "empty" 1).cameraState.status
      ≠ CameraStatus.ACTIVE := by
  constructor
  · rfl
  · decide

/-- C5 (amended): for every camera polling a room whose state is EMPTY,
`check_room_and_update_state` always ends the call with status INACTIVE: an
OFFLINE camera transitions to INACTIVE, an INACTIVE camera stays put, and any
other status — including ACTIVE from a prior explicit command — is demoted to
INACTIVE (there is no poll-driven activation). -/
theorem empty_room_poll_forces_inactive (c : CameraM) (now : Nat) :
    (c.checkRoomAndUpdateState "empty" now).cameraState.status = CameraStatus.INACTIVE := by
  obtain ⟨⟨st, e, h, m⟩, saw⟩ := c
  cases st <;> rfl

/-- C7: a `transition_to` call whose target differs from the current status
and is not in the allowed-edges set returns false and leaves the whole state
(status, entered_at, history, error_message) unchanged; a call whose target
differs and is allowed returns true, moves to the target status, resets
entered_at to now, and appends `(status, now)` to the history. -/
theorem transition_rejects_without_mutation_and_success_appends
    (st : CameraState) (newStatus : CameraStatus) (reason : Option String) (now : Nat) :
    (newStatus ≠ st.status → newStatus ∉ TRANSITIONS st.status →
      st.transitionTo newStatus reason now = (false, st))
    ∧ (newStatus ≠ st.status → newStatus ∈ TRANSITIONS st.status →
      (st.transitionTo newStatus reason now).1 = true
      ∧ (st.transitionTo newStatus reason now).2.status = newStatus
      ∧ (st.transitionTo newStatus reason now).2.enteredAt = now
      ∧ (st.transitionTo newStatus reason now).2.history
          = st.history ++ [(newStatus, now)]) := by
  constructor
  · intro hne hnin
    simp [CameraState.transitionTo, hne, hnin]
  · intro hne hin
    simp [CameraState.transitionTo, hne, hin]

/-- Witness for C7: from OFFLINE, the disallowed edge to RECORDING is rejected
with no mutation, and the allowed edge to INACTIVE updates entered_at and
appends to the history. -/
theorem transition_rejects_without_mutation_and_success_appends_witness :
    offlineStateExample.transitionTo CameraStatus.RECORDING none 5
      = (false, offlineStateExample)
    ∧ (offlineStateExample.transitionTo CameraStatus.INACTIVE none 5).2.enteredAt = 5
    ∧ (offlineStateExample.transitionTo CameraStatus.INACTIVE none 5).2.history
        = offlineStateExample.history ++ [(CameraStatus.INACTIVE, 5)] :=
  ⟨(transition_rejects_without_mutation_and_success_appends
      offlineStateExample CameraStatus.RECORDING none 5).1 (by decide) (by decide),
   ((transition_rejects_without_mutation_and_success_appends
      offlineStateExample CameraStatus.INACTIVE none 5).2 (by decide) (by decide)).2.2.1,
   ((transition_rejects_without_mutation_and_success_appends
      offlineStateExample CameraStatus.INACTIVE none 5).2 (by decide) (by decide)).2.2.2⟩

/-! ### Helper lemmas about Room timers -/

theorem cancelEmptyTimer_state (r : RoomM) : r.cancelEmptyTimer.state = r.state := by
  cases hr : r.emptyTimer <;> simp [RoomM.cancelEmptyTimer, hr]

theorem cancelEmptyTimer_nextTimerId (r : RoomM) :
    r.cancelEmptyTimer.nextTimerId = r.nextTimerId := by
  cases hr : r.emptyTimer <;> simp [RoomM.cancelEmptyTimer, hr]

theorem cancelEmptyTimer_captureDelay (r : RoomM) :
    r.cancelEmptyTimer.captureDelay = r.captureDelay := by
  cases hr : r.emptyTimer <;> simp [RoomM.cancelEmptyTimer, hr]

theorem cancelEmptyTimer_emptyTimer (r : RoomM) : r.cancelEmptyTimer.emptyTimer = none := by
  cases hr : r.emptyTimer <;> simp [RoomM.cancelEmptyTimer, hr]

theorem cancelEmptyTimer_armed (r : RoomM) (h : r.timerInv) :
    r.cancelEmptyTimer.armedTimers = [] := by
  unfold RoomM.timerInv RoomM.armedByField at h
  cases hr : r.emptyTimer with
  | none =>
      rw [hr] at h
      simp at h
      simp [RoomM.cancelEmptyTimer, hr, h]
  | some tid =>
      rw [hr] at h
      simp at h
      simp [RoomM.cancelEmptyTimer, hr, h]

theorem cancelEmptyTimer_timerInv (r : RoomM) (h : r.timerInv) :
    r.cancelEmptyTimer.timerInv := by
  unfold RoomM.timerInv RoomM.armedByField
  simp [cancelEmptyTimer_emptyTimer, cancelEmptyTimer_armed r h]

theorem startEmptyTimer_state (r : RoomM) : r.startEmptyTimer.state = r.state := by
  simp [RoomM.startEmptyTimer, cancelEmptyTimer_state]

theorem startEmptyTimer_emptyTimer (r : RoomM) :
    r.startEmptyTimer.emptyTimer = some r.nextTimerId := by
  simp [RoomM.startEmptyTimer, cancelEmptyTimer_nextTimerId]

theorem startEmptyTimer_armed (r : RoomM) (h : r.timerInv) :
    r.startEmptyTimer.armedTimers = [(r.nextTimerId, r.captureDelay)] := by
  simp [RoomM.startEmptyTimer, cancelEmptyTimer_armed r h,
    cancelEmptyTimer_nextTimerId, cancelEmptyTimer_captureDelay]

theorem startEmptyTimer_timerInv (r : RoomM) (h : r.timerInv) :
    r.startEmptyTimer.timerInv := by
  unfold RoomM.timerInv RoomM.armedByField
  simp [RoomM.startEmptyTimer, cancelEmptyTimer_captureDelay,
    cancelEmptyTimer_nextTimerId, cancelEmptyTimer_armed r h]

theorem setState_state_update (r : RoomM) (s : String) (hv : s ∈ validStates) :
    (r.setState s).1.state = some s := by
  unfold RoomM.setState
  simp only [hv, if_pos]
  split
  · split
    · simp [startEmptyTimer_state]
    · split
      · simp [cancelEmptyTimer_state]
      · simp
  · simp

theorem setState_timerInv (r : RoomM) (s : String) (h : r.timerInv) :
    (r.setState s).1.timerInv := by
  have hr1 : ({ r with state := some s } : RoomM).timerInv := h
  unfold RoomM.setState
  dsimp only
  split
  · split
    · split
      · exact startEmptyTimer_timerInv _ hr1
      · split
        · exact cancelEmptyTimer_timerInv _ hr1
        · exact hr1
    · exact hr1
  · exact h

/-- On an actual occupied-to-empty change, the setter stores the state and
(re)starts the empty timer. -/
theorem setState_occ_to_empty (re : Option Nat) (ra : List (Nat × Nat)) (rn rc : Nat) :
    (RoomM.mk (some "occupied") re ra rn rc).setState "empty"
      = ((RoomM.mk (some "empty") re ra rn rc).startEmptyTimer, none) := rfl

/-- On an actual empty-to-occupied change, the setter stores the state and
cancels the empty timer. -/
theorem setState_empty_to_occ (re : Option Nat) (ra : List (Nat × Nat)) (rn rc : Nat) :
    (RoomM.mk (some "empty") re ra rn rc).setState "occupied"
      = ((RoomM.mk (some "occupied") re ra rn rc).cancelEmptyTimer, none) := rfl

/-- C8: for every room satisfying the timer invariant, an actual
occupied-to-empty change returns normally and leaves exactly one freshly armed
timer, armed for `capture_delay` seconds, the previously armed timer having
been cancelled first; an actual empty-to-occupied change cancels the pending
timer, leaving none armed; a same-state assignment returns the room unchanged
(no timer churn); the timer invariant is preserved by every `state` setter
call; and under the invariant at most one timer is armed. -/
theorem room_state_timer_semantics (r : RoomM) :
    (r.state = some "occupied" → r.timerInv →
      (r.setState "empty").2 = none
      ∧ (r.setState "empty").1.state = some "empty"
      ∧ (r.setState "empty").1.emptyTimer = some r.nextTimerId
      ∧ (r.setState "empty").1.armedTimers = [(r.nextTimerId, r.captureDelay)])
    ∧ (r.state = some "empty" → r.timerInv →
      (r.setState "occupied").2 = none
      ∧ (r.setState "occupied").1.state = some "occupied"
      ∧ (r.setState "occupied").1.emptyTimer = none
      ∧ (r.setState "occupied").1.armedTimers = [])
    ∧ (∀ s, r.state = some s → s ∈ validStates → r.setState s = (r, none))
    ∧ (∀ s, r.timerInv → (r.setState s).1.timerInv)
    ∧ (r.timerInv → r.armedTimers.length ≤ 1) := by
  obtain ⟨rst, re, ra, rn, rc⟩ := r
  refine ⟨?_, ?_, ?_, ?_, ?_⟩
  · intro hst hinv
    dsimp only at hst
    subst hst
    have hr1 : (RoomM.mk (some "empty") re ra rn rc).timerInv := hinv
    rw [setState_occ_to_empty]
    exact ⟨rfl, (startEmptyTimer_state _).trans rfl,
      startEmptyTimer_emptyTimer _,
      startEmptyTimer_armed _ hr1⟩
  · intro hst hinv
    dsimp only at hst
    subst hst
    have hr1 : (RoomM.mk (some "occupied") re ra rn rc).timerInv := hinv
    rw [setState_empty_to_occ]
    exact ⟨rfl, (cancelEmptyTimer_state _).trans rfl,
      cancelEmptyTimer_emptyTimer _,
      cancelEmptyTimer_armed _ hr1⟩
  · intro s hs hv
    dsimp only at hs
    subst hs
    simp [RoomM.setState, hv]
  · intro s h
    exact setState_timerInv _ s h
  · intro h
    unfold RoomM.timerInv RoomM.armedByField at h
    dsimp only at h
    cases hr : re with
    | none => rw [hr] at h; simp [h]
    | some tid => rw [hr] at h; simp [h]

/-- Witness for C8 at concrete rooms: occupied-to-empty cancels timer 0 and
arms exactly timer 1 for 30 seconds; empty-to-occupied cancels the pending
timer; a same-state assignment is the identity. -/
theorem room_state_timer_semantics_witness :
    ((occupiedRoomExample.setState "empty").2 = none
      ∧ (occupiedRoomExample.setState "empty").1.emptyTimer = some 1
      ∧ (occupiedRoomExample.setState "empty").1.armedTimers = [(1, 30)])
    ∧ ((emptyRoomExample.setState "occupied").2 = none
      ∧ (emptyRoomExample.setState "occupied").1.emptyTimer = none
      ∧ (emptyRoomExample.setState "occupied").1.armedTimers = [])
    ∧ occupiedRoomExample.setState "occupied" = (occupiedRoomExample, none) := by
  have h1 := (room_state_timer_semantics occupiedRoomExample).1 rfl (by decide)
  have h2 := (room_state_timer_semantics emptyRoomExample).2.1 rfl (by decide)
  have h3 := (room_state_timer_semantics occupiedRoomExample).2.2.1 "occupied" rfl (by decide)
  exact ⟨⟨h1.1, h1.2.2.1, h1.2.2.2⟩, ⟨h2.1, h2.2.2.1, h2.2.2.2⟩, h3⟩

/-- `Room.state` setter returns normally on any valid value. -/
theorem setState_ok (r : RoomM) (s : String) (hv : s ∈ validStates) :
    (r.setState s).2 = none := by
  unfold RoomM.setState
  dsimp only
  rw [if_pos hv]
  split
  · split
    · rfl
    · split
      · rfl
      · rfl
  · rfl

/-- C9: assigning a value outside the two valid states to `Room.state` raises
a ValueError and leaves the room (state included) unchanged; the setter
returns normally exactly on valid values; and any normal return leaves the
room state equal to "occupied" or "empty". -/
theorem room_state_setter_validation (r : RoomM) (s : String) :
    (s ∉ validStates → r.setState s = (r, some ("ValueError: Invalid state: " ++ s)))
    ∧ ((r.setState s).2 = none ↔ s ∈ validStates)
    ∧ ((r.setState s).2 = none →
        (r.setState s).1.state = some "occupied" ∨ (r.setState s).1.state = some "empty") := by
  have hinv : s ∉ validStates →
      r.setState s = (r, some ("ValueError: Invalid state: " ++ s)) := by
    intro h
    unfold RoomM.setState
    rw [if_neg h]
  refine ⟨hinv, ?_, ?_⟩
  · constructor
    · intro h2
      by_contra hv
      rw [hinv hv] at h2
      simp at h2
    · intro hv
      exact setState_ok r s hv
  · intro h2
    by_cases hv : s ∈ validStates
    · have hs := setState_state_update r s hv
      have hsv : s = "occupied" ∨ s = "empty" := by simpa [validStates] using hv
      rcases hsv with h | h
      · left
        rw [hs, h]
      · right
        rw [hs, h]
    · rw [hinv hv] at h2
      simp at h2

/-- Witness for C9: assigning "invalid_state" raises and leaves the room
unchanged; a valid assignment leaves the state in the valid set. -/
theorem room_state_setter_validation_witness :
    occupiedRoomExample.setState "invalid_state"
      = (occupiedRoomExample, some ("ValueError: Invalid state: " ++ "invalid_state"))
    ∧ ((occupiedRoomExample.setState "empty").1.state = some "occupied"
        ∨ (occupiedRoomExample.setState "empty").1.state = some "empty") := by
  have h1 := (room_state_setter_validation occupiedRoomExample "invalid_state").1 (by decide)
  have h2 := (room_state_setter_validation occupiedRoomExample "empty").2.2 (by rfl)
  exact ⟨h1, h2⟩

/-- After `on_heartbeat_timeout`, the last-heartbeat timestamp is cleared. -/
theorem onHeartbeatTimeout_last (d : PersonDetectorM) :
    d.onHeartbeatTimeout.lastHeartbeatTime = none := by
  cases hd : d.room <;> simp [PersonDetectorM.onHeartbeatTimeout, hd]

/-- After `on_heartbeat_timeout`, an owning room has been written through its
state setter with "empty". -/
theorem onHeartbeatTimeout_room (d : PersonDetectorM) (r : RoomM)
    (h : d.room = some r) :
    d.onHeartbeatTimeout.room = some (r.setState "empty").1 := by
  simp [PersonDetectorM.onHeartbeatTimeout, h]

/-- C10: `check_heartbeat_timeout` invokes `on_heartbeat_timeout` — clearing
the last-heartbeat timestamp and setting the owning room to EMPTY — exactly
when a heartbeat has been seen and strictly more than `heartbeat_timeout`
seconds have elapsed; a never-signaled detector and a within-timeout detector
are left entirely unchanged. -/
theorem heartbeat_timeout_check_semantics (d : PersonDetectorM) (now : Int) :
    (∀ t, d.lastHeartbeatTime = some t → now - t > d.heartbeatTimeout →
      d.checkHeartbeatTimeout now = d.onHeartbeatTimeout
      ∧ (d.checkHeartbeatTimeout now).lastHeartbeatTime = none
      ∧ ∀ r, d.room = some r →
          (d.checkHeartbeatTimeout now).room = some (r.setState "empty").1
          ∧ (r.setState "empty").1.state = some "empty")
    ∧ (d.lastHeartbeatTime = none → d.checkHeartbeatTimeout now = d)
    ∧ (∀ t, d.lastHeartbeatTime = some t → now - t ≤ d.heartbeatTimeout →
      d.checkHeartbeatTimeout now = d) := by
  refine ⟨?_, ?_, ?_⟩
  · intro t ht hgt
    have he : d.checkHeartbeatTimeout now = d.onHeartbeatTimeout := by
      simp [PersonDetectorM.checkHeartbeatTimeout, ht, hgt]
    refine ⟨he, ?_, ?_⟩
    · rw [he]
      exact onHeartbeatTimeout_last d
    · intro r hr
      refine ⟨?_, setState_state_update r "empty" (by decide)⟩
      rw [he]
      exact onHeartbeatTimeout_room d r hr
  · intro h
    simp [PersonDetectorM.checkHeartbeatTimeout, h]
  · intro t ht hle
    simp [PersonDetectorM.checkHeartbeatTimeout, ht, not_lt.mpr hle]

/-- Witness for C10: a detector signaled at t=0 with a 10s timeout fires at
now=11 (clearing the timestamp and emptying the room), stays put at now=5,
and a never-signaled detector is untouched. -/
theorem heartbeat_timeout_check_semantics_witness :
    (timedOutDetectorExample.checkHeartbeatTimeout 11).lastHeartbeatTime = none
    ∧ (timedOutDetectorExample.checkHeartbeatTimeout 11).room
        = some (occupiedRoomExample.setState "empty").1
    ∧ (occupiedRoomExample.setState "empty").1.state = some "empty"
    ∧ freshDetectorExample.checkHeartbeatTimeout 11 = freshDetectorExample
    ∧ timedOutDetectorExample.checkHeartbeatTimeout 5 = timedOutDetectorExample := by
  have h1 := (heartbeat_timeout_check_semantics timedOutDetectorExample 11).1 0 rfl (by decide)
  have h2 := (heartbeat_timeout_check_semantics freshDetectorExample 11).2.1 rfl
  have h3 := (heartbeat_timeout_check_semantics timedOutDetectorExample 5).2.2 0 rfl (by decide)
  have h4 := h1.2.2 occupiedRoomExample rfl
  exact ⟨h1.2.1, h4.1, h4.2, h2, h3⟩

/-- C1 (code evaluation at the failing input): the delayed-capture trigger
`Room._trigger_capture` requests each camera's capture URL directly and writes
`captures/{name}-{timestamp}.jpeg`; its trace contains no capture-complete
callback invocation; by contrast `Camera.capture_image` — the capture
collaborator the claim names — first issues the framesize control request and
writes the tag-and-room-qualified artifact, which `_trigger_capture` never
produces. -/
theorem trigger_capture_bypasses_capture_image_and_callback :
    triggerCapture [cam1Example] "20260101_000000" httpOkWorld
      = [CaptureEvent.httpGet "http://10.0.0.5/capture",
         CaptureEvent.fileWrite "captures/cam1-20260101_000000.jpeg"]
    ∧ ((triggerCapture [cam1Example] "20260101_000000" httpOkWorld).all
        fun e => ! e.isCallbackCall) = true
    ∧ captureImage cam1Example "room1" "capture" "20260101_000000" httpOkWorld
      = ([CaptureEvent.httpGet "http://10.0.0.5/control?var=framesize&val=15",
          CaptureEvent.httpGet "http://10.0.0.5/capture",
          CaptureEvent.fileWrite "captures/capture-room1-cam1-20260101_000000.jpeg"],
         some "captures/capture-room1-cam1-20260101_000000.jpeg")
    ∧ CaptureEvent.fileWrite "captures/capture-room1-cam1-20260101_000000.jpeg"
        ∉ triggerCapture [cam1Example] "20260101_000000" httpOkWorld := by
  refine ⟨rfl, rfl, rfl, ?_⟩
  decide

/-- C2 (code evaluation at the failing input): `RoomController.add_room` on a
room not yet registered first appends the room to the controller's list and
then raises AttributeError, because `class Room` defines no
`set_capture_callback` attribute for the controller to call. -/
theorem add_room_appends_then_raises_attribute_error
    (rooms : List String) (roomId : String) (h : roomId ∉ rooms) :
    addRoom rooms roomId
      = { rooms := rooms ++ [roomId]
          raised := some "AttributeError: Room object has no attribute set_capture_callback" } := by
  unfold addRoom
  rw [if_neg h]
  rfl

/-- Witness for C2: adding room "room1" to a fresh controller appends it and
raises. -/
theorem add_room_appends_then_raises_attribute_error_witness :
    addRoom [] "room1"
      = { rooms := ["room1"]
          raised := some "AttributeError: Room object has no attribute set_capture_callback" } :=
  add_room_appends_then_raises_attribute_error [] "room1" (by decide)

/-- C3 (code evaluation at the failing input): when `detector.connect()`
raises, `RoomController._async_detector_loop` makes exactly one connect
attempt, never subscribes, performs no heartbeat checks, disconnects once and
terminates — there is no retry and no backoff, regardless of how long the
running flag would have stayed set. -/
theorem detector_loop_connect_failure_no_retry (subscribeRaises : Bool)
    (runningIters : Nat) :
    asyncDetectorLoop true subscribeRaises runningIters
      = { connectCalls := 1, subscribeCalls := 0, heartbeatChecks := 0,
          disconnectCalls := 1 } := rfl

/-- C4: for every combination of constructor arguments, `Camera.__init__`
raises TypeError: it calls `CameraState(resolved_status, camera=self)`, but
`CameraState.__init__` accepts only `initial_status`, so the keyword `camera`
is never accepted and the constructor can never complete. -/
theorem camera_constructor_always_type_error (name roomId : String)
    (initialStatus : CameraStatus) (state : PyStateArg) (now : Nat) :
    cameraInit name roomId initialStatus state now
      = Except.error
          "TypeError: CameraState.__init__ got an unexpected keyword argument camera" := rfl

end GelController
